import Mathlib

/-!
Shallow embedding of the query-serving core of `src/app.py`
(the `search_documents` function and the document list it reads),
together with proofs of the spec's testable properties.

A document record is the dict appended in `fetch_o365_documents`
(keys `name`, `site`, `url`, `content`, always all present).
The document store is the Python list `docs`; `search_documents`
is embedded field by field, with the two response shapes of the
two branches captured by `Option`-valued fields.
-/

/-- A document record: the dict `{"name", "site", "url", "content"}`
built at ingestion time in `fetch_o365_documents`. -/
structure DocumentRecord where
  name : String
  site : String
  url : String
  content : String
deriving DecidableEq, Repr

/-- A reduced record as placed in the `results` payload:
`{"name": d["name"], "site": d["site"], "url": d["url"]}`. -/
structure ResultRecord where
  name : String
  site : String
  url : String
deriving DecidableEq, Repr

/-- The JSON object returned by `search_documents`.  The two branches
return different key sets, so every key that is present in only one
branch is modelled as an `Option` (`none` = key absent from the dict). -/
structure SearchResponse where
  status : String
  query : String
  count : Option Nat
  total_documents : Option Nat
  matching_documents : Option Nat
  results : Option (List ResultRecord)
deriving DecidableEq, Repr

/-- Test that the first character list is an initial segment of the second. -/
def startsWithChars : List Char → List Char → Bool
  | [], _ => true
  | _ :: _, [] => false
  | a :: p, b :: s => a == b && startsWithChars p s

/-- Python's `needle in haystack` on strings: contiguous-substring test,
over the underlying character lists. -/
def containsChars (needle : List Char) : List Char → Bool
  | [] => needle.isEmpty
  | b :: s => startsWithChars needle (b :: s) || containsChars needle s

/-- Python's `needle in haystack` lifted to `String`. -/
def pyContains (needle haystack : String) : Bool :=
  containsChars needle.data haystack.data

/-- Python's `s.lower()`: character-wise lower-casing. -/
def pyLower (s : String) : String :=
  String.mk (s.data.map Char.toLower)

/-- The per-record test of the list comprehension in `search_documents`:
`query_lower in d["name"].lower() or query_lower in d["site"].lower()`,
with `query_lower = query.lower()`. -/
def matchesQuery (query : String) (d : DocumentRecord) : Bool :=
  pyContains (pyLower query) (pyLower d.name) || pyContains (pyLower query) (pyLower d.site)

/-- The matcher: the records of the store selected by the comprehension's
condition, in store order. -/
def matchDocs (query : String) (docs : List DocumentRecord) : List DocumentRecord :=
  docs.filter (matchesQuery query)

/-- The projection applied inside the comprehension:
`{"name": d["name"], "site": d["site"], "url": d["url"]}`. -/
def project (d : DocumentRecord) : ResultRecord :=
  ResultRecord.mk d.name d.site d.url

/-- `search_documents(query)` from `src/app.py`, with the module-global
`docs` passed explicitly.  The first branch is `if not docs: return
{"status": "No documents found", "count": 0, "query": query}`; the second
builds `matching_docs` by the comprehension and returns the success dict
with `results = matching_docs[:5]`. -/
def search_documents (query : String) (docs : List DocumentRecord) : SearchResponse :=
  if docs.isEmpty then
    SearchResponse.mk "No documents found" query (some 0) none none none
  else
    SearchResponse.mk "success" query none
      (some docs.length)
      (some ((matchDocs query docs).map project).length)
      (some (((matchDocs query docs).map project).take 5))

/-- A concrete record (spec Scenario 1 shape) used to instantiate theorems. -/
def sampleDoc : DocumentRecord :=
  DocumentRecord.mk "report.docx" "Finance" "https://example.com/report.docx"
    "Document from Finance: report.docx"

/-- The empty needle is found in every haystack (Python: `"" in s` is `True`). -/
lemma containsChars_nil (l : List Char) : containsChars [] l = true := by
  induction l with
  | nil => rfl
  | cons b s ih => simp [containsChars, startsWithChars, ih]

/-- Lower-casing the empty string yields the empty string. -/
lemma pyLower_empty : pyLower "" = "" := rfl

/-- Every record matches the empty query. -/
lemma matchesQuery_empty (d : DocumentRecord) : matchesQuery "" d = true := by
  simp [matchesQuery, pyLower_empty, pyContains, containsChars_nil]

/-- C1: the claim says the empty-store status is the string "no_documents";
the code returns the string "No documents found" instead.  Counterexample at
the spec's own Scenario 2 input (query "anything", empty store). -/
theorem c1_counterexample :
    (search_documents "anything" []).status = "No documents found" ∧
    (search_documents "anything" []).status ≠ "no_documents" := by
  constructor
  · rfl
  · decide

/-- C1 (amended): for every query, an empty store yields status
"No documents found", a non-empty store yields status "success", and these
are the only two status values. -/
theorem c1_status_values (q : String) (docs : List DocumentRecord) :
    (docs = [] → (search_documents q docs).status = "No documents found") ∧
    (docs ≠ [] → (search_documents q docs).status = "success") ∧
    ((search_documents q docs).status = "No documents found" ∨
      (search_documents q docs).status = "success") := by
  cases docs with
  | nil => simp [search_documents]
  | cons d ds => simp [search_documents]

/-- C1 witness: the amended theorem applied at query "anything" with the
empty store and at query "report" with a one-record store. -/
theorem c1_witness :
    (search_documents "anything" []).status = "No documents found" ∧
    (search_documents "report" [sampleDoc]).status = "success" :=
  ⟨(c1_status_values "anything" []).1 rfl,
    (c1_status_values "report" [sampleDoc]).2.1 (by simp)⟩

/-- C2: the claim says every response contains total_documents = store.size(),
in particular total_documents = 0 for the empty store; but the empty-store
response has no total_documents key at all (it carries count = 0 instead). -/
theorem c2_counterexample :
    (search_documents "anything" []).total_documents = none ∧
    (search_documents "anything" []).total_documents ≠ some 0 := by
  constructor
  · rfl
  · decide

/-- C2 (amended): for a non-empty store the response's total_documents equals
store.size(); for the empty store the response has no total_documents field
and instead carries a count field equal to 0. -/
theorem c2_total_documents (q : String) (docs : List DocumentRecord) :
    (docs ≠ [] → (search_documents q docs).total_documents = some docs.length) ∧
    (docs = [] → (search_documents q docs).total_documents = none ∧
      (search_documents q docs).count = some 0) := by
  cases docs with
  | nil => simp [search_documents]
  | cons d ds => simp [search_documents]

/-- C2 witness: the amended theorem applied at a one-record store and at the
empty store. -/
theorem c2_witness :
    (search_documents "report" [sampleDoc]).total_documents = some 1 ∧
    (search_documents "anything" []).total_documents = none :=
  ⟨(c2_total_documents "report" [sampleDoc]).1 (by simp),
    ((c2_total_documents "anything" []).2 rfl).1⟩

/-- C3: a record of the store is matched exactly when the lower-cased query
occurs in its lower-cased name or its lower-cased site, and the content field
is never consulted by the match. -/
theorem c3_match_iff (q : String) (docs : List DocumentRecord) (d : DocumentRecord)
    (h : d ∈ docs) :
    (d ∈ matchDocs q docs ↔
      (pyContains (pyLower q) (pyLower d.name) = true ∨
        pyContains (pyLower q) (pyLower d.site) = true)) ∧
    (∀ c : String,
      matchesQuery q (DocumentRecord.mk d.name d.site d.url c) = matchesQuery q d) := by
  constructor
  · simp [matchDocs, List.mem_filter, h, matchesQuery, Bool.or_eq_true]
  · intro c
    rfl

/-- C3 witness: the sample record is matched by query "report" through its
name field. -/
theorem c3_witness : sampleDoc ∈ matchDocs "report" [sampleDoc] :=
  ((c3_match_iff "report" [sampleDoc] sampleDoc (by simp)).1).mpr (by decide)

/-- C4: for a non-empty store the results field is the first 5 matches in
store order, each reduced to name/site/url; its length is at most 5, and
matching_documents counts all matches before truncation, so it is at least
the length of results. -/
theorem c4_results (q : String) (docs : List DocumentRecord) (h : docs ≠ []) :
    ∃ rs m,
      (search_documents q docs).results = some rs ∧
      (search_documents q docs).matching_documents = some m ∧
      rs = ((matchDocs q docs).map project).take 5 ∧
      rs.length ≤ 5 ∧
      m = (matchDocs q docs).length ∧
      rs.length ≤ m := by
  cases docs with
  | nil => exact absurd rfl h
  | cons d ds =>
      refine ⟨(((matchDocs q (d :: ds)).map project).take 5),
        ((matchDocs q (d :: ds)).map project).length, ?_, ?_, rfl, ?_, ?_, ?_⟩
      · simp [search_documents]
      · simp [search_documents]
      · rw [List.length_take]
        exact min_le_left _ _
      · simp [List.length_map]
      · rw [List.length_take]
        exact min_le_right _ _

/-- C4 witness: the theorem applied at query "report" with a one-record
store. -/
theorem c4_witness :
    ∃ rs m,
      (search_documents "report" [sampleDoc]).results = some rs ∧
      (search_documents "report" [sampleDoc]).matching_documents = some m ∧
      rs = ((matchDocs "report" [sampleDoc]).map project).take 5 ∧
      rs.length ≤ 5 ∧
      m = (matchDocs "report" [sampleDoc]).length ∧
      rs.length ≤ m :=
  c4_results "report" [sampleDoc] (by simp)

/-- C5: the matcher is a stable filter: its output is a sublist (order-
preserving subsequence) of the store's record sequence. -/
theorem c5_stable_filter (q : String) (docs : List DocumentRecord) :
    List.Sublist (matchDocs q docs) docs :=
  List.filter_sublist docs

/-- C6: the empty query matches every record, and on a non-empty store the
response's matching_documents equals its total_documents. -/
theorem c6_empty_query (docs : List DocumentRecord) :
    matchDocs "" docs = docs ∧
    (docs ≠ [] →
      (search_documents "" docs).matching_documents =
        (search_documents "" docs).total_documents) := by
  have hall : matchDocs "" docs = docs :=
    List.filter_eq_self.mpr (fun d _ => matchesQuery_empty d)
  refine ⟨hall, ?_⟩
  intro h
  cases docs with
  | nil => exact absurd rfl h
  | cons d ds => simp [search_documents, hall, List.length_map]

/-- C6 witness: the theorem applied at a one-record store. -/
theorem c6_witness :
    matchDocs "" [sampleDoc] = [sampleDoc] ∧
    (search_documents "" [sampleDoc]).matching_documents =
      (search_documents "" [sampleDoc]).total_documents :=
  ⟨(c6_empty_query [sampleDoc]).1, (c6_empty_query [sampleDoc]).2 (by simp)⟩

/-- C7: matching is case-insensitive: two queries with the same lower-casing
produce the same match sequence. -/
theorem c7_case_insensitive (q1 q2 : String) (docs : List DocumentRecord)
    (h : pyLower q1 = pyLower q2) :
    matchDocs q1 docs = matchDocs q2 docs := by
  have hm : matchesQuery q1 = matchesQuery q2 := by
    funext d
    unfold matchesQuery
    rw [h]
  unfold matchDocs
  rw [hm]

/-- C7 witness: the theorem applied at queries "ABC" and "abc" on a
one-record store. -/
theorem c7_witness : matchDocs "ABC" [sampleDoc] = matchDocs "abc" [sampleDoc] :=
  c7_case_insensitive "ABC" "abc" [sampleDoc] (by decide)

/-- C8: the handler is total: every query and store yield a response, whose
query field echoes the input and whose status is one of the two values. -/
theorem c8_total (q : String) (docs : List DocumentRecord) :
    ∃ r : SearchResponse,
      search_documents q docs = r ∧ r.query = q ∧
      (r.status = "No documents found" ∨ r.status = "success") := by
  refine ⟨search_documents q docs, rfl, ?_, ?_⟩
  · unfold search_documents
    split <;> rfl
  · unfold search_documents
    split
    · exact Or.inl rfl
    · exact Or.inr rfl

/-- C9: the response's query field echoes the input query verbatim, in both
the empty-store and the non-empty-store branches. -/
theorem c9_query_echo (q : String) (docs : List DocumentRecord) :
    (search_documents q docs).query = q := by
  unfold search_documents
  split <;> rfl

/-- C10: with a non-empty store and a query matching no record, the response
still has status "success", with matching_documents = 0 and empty results:
the "No documents found" branch depends only on the store being empty. -/
theorem c10_no_match_success (q : String) (docs : List DocumentRecord)
    (h : docs ≠ []) (hm : matchDocs q docs = []) :
    (search_documents q docs).status = "success" ∧
    (search_documents q docs).matching_documents = some 0 ∧
    (search_documents q docs).results = some [] := by
  cases docs with
  | nil => exact absurd rfl h
  | cons d ds => simp [search_documents, hm]

/-- C10 witness: the theorem applied at query "zzz" with a one-record store
that the query does not match. -/
theorem c10_witness :
    (search_documents "zzz" [sampleDoc]).status = "success" ∧
    (search_documents "zzz" [sampleDoc]).matching_documents = some 0 ∧
    (search_documents "zzz" [sampleDoc]).results = some [] :=
  c10_no_match_success "zzz" [sampleDoc] (by simp) (by decide)
